import Mathlib

/- Verification development for the deploy command-line front-end
(deploy.py).  The program parses one sub-command (the action) together
with that action's required two-dash options via Python's argparse,
builds a fixed list of command tokens for the selected action, runs the
resulting external command as a child process, and checks the child's
exit status with check_returncode.

The embedding models:
* the five command-token builders of deploy.py, copied token for token
  from the source lists in deploy_local_train, deploy_trainer,
  deploy_local_batch_train, deploy_batch_trainer and deploy_predictor;
* the argument parser, rendering the behaviour of the argparse
  configuration constructed in parse(): five sub-commands, each with its
  own set of required two-dash options, the automatically added help
  option, option abbreviation (allow_abbrev is left at its default),
  both the space-separated and the equals-sign option-value forms, and
  the bare double-dash separator;
* subprocess.run followed by check_returncode, as a function of the
  child's exit status: zero returns normally, non-zero raises; and
* the control flow of main(): parse, then select the action's deploy
  function, with the fall-through ValueError for an unset action. -/

namespace Deploy

/- True when the token begins with a dash, i.e. argparse treats it as an
optional rather than a positional. -/
def startsDash (t : String) : Bool :=
  match t.toList with
  | '-' :: _ => true
  | _ => false

/- True when the token begins with two dashes. -/
def startsDashDash (t : String) : Bool :=
  match t.toList with
  | '-' :: '-' :: _ => true
  | _ => false

/- The five sub-command names registered with add_subparsers in parse(). -/
def actionNames : List String :=
  ["local_train", "train", "local_batch_train", "batch_train", "predict"]

/- The required options of each sub-command, as pairs of the option's
flag spelling (after the two dashes) and its destination attribute name.
Every option declared in parse() carries required=True; the only flag
whose spelling and destination differ is predict's package-path, stored
as package_path. -/
def specFor (a : String) : List (String × String) :=
  if a = "train" then
    [("bucket", "bucket"), ("path", "path"), ("name", "name")]
  else if a = "local_batch_train" then
    [("project", "project"), ("dataset_table", "dataset_table")]
  else if a = "batch_train" then
    [("bucket", "bucket"), ("name", "name"),
     ("project", "project"), ("dataset_table", "dataset_table")]
  else if a = "predict" then
    [("version", "version"), ("model", "model"),
     ("origin", "origin"), ("package-path", "package_path")]
  else []

/- Classification of one optional token inside a sub-command parse. -/
inductive Tok where
  | helpTok : Tok
  | eqOpt (dest : String) (val : String) : Tok
  | spaceOpt (dest : String) : Tok
  | bad : Tok
deriving DecidableEq

/- Resolve an option name (the characters between the two dashes and a
possible equals sign) against a sub-command's options, argparse style:
an exact match wins; otherwise an unambiguous proper abbreviation is
accepted; anything else (unknown or ambiguous) is rejected.  The
automatically added help option takes part in the resolution. -/
def findOpt (spec : List (String × String)) (name : List Char) :
    Option (String × String) :=
  let opts := ("help", "help") :: spec
  match opts.find? (fun p => p.1.toList == name) with
  | some p => some p
  | none =>
    if name.isEmpty then none
    else
      match opts.filter (fun p => name.isPrefixOf p.1.toList) with
      | [p] => some p
      | _ => none

/- Classify one token during a sub-command parse: the help flag, an
option with an attached equals-sign value, an option expecting the next
token as its value, or an erroneous token (unknown option, ambiguous
abbreviation, stray positional, or explicit value given to help). -/
def classify (spec : List (String × String)) (t : String) : Tok :=
  if t = "-h" then .helpTok
  else if startsDashDash t then
    let body := t.toList.drop 2
    let name := body.takeWhile (fun c => c != '=')
    let eqrest := body.dropWhile (fun c => c != '=')
    match findOpt spec name with
    | none => .bad
    | some fd =>
      if fd.1 = "help" then (if eqrest.isEmpty then .helpTok else .bad)
      else
        match eqrest with
        | [] => .spaceOpt fd.2
        | _ :: v => .eqOpt fd.2 (String.mk v)
  else .bad

/- Outcome of parsing a sub-command's argument tail: the collected
option assignments, a usage error, or a help exit. -/
inductive SubRes where
  | ok (opts : List (String × String)) : SubRes
  | err : SubRes
  | help : SubRes
deriving DecidableEq

/- Parse the tokens following the sub-command name.  The pending slot
holds the destination of an option still waiting for its value token.
A later assignment to a destination shadows an earlier one because
assignments are prepended and looked up front to back. -/
def parseOpts (spec : List (String × String)) :
    List String → List (String × String) → Option String → SubRes
  | [], opts, none => .ok opts
  | [], _, some _ => .err
  | t :: rest, opts, some d =>
    if startsDash t then .err
    else parseOpts spec rest ((d, t) :: opts) none
  | t :: rest, opts, none =>
    if t = "--" then (if rest.isEmpty then .ok opts else .err)
    else
      match classify spec t with
      | .helpTok => .help
      | .bad => .err
      | .eqOpt d v => parseOpts spec rest ((d, v) :: opts) none
      | .spaceOpt d => parseOpts spec rest opts (some d)

/- argparse's required-option check: every declared option of the
sub-command must have received a value. -/
def requiredOk (spec : List (String × String))
    (opts : List (String × String)) : Bool :=
  spec.all (fun p => (opts.lookup p.2).isSome)

/- The Namespace object produced by parse_args: the chosen action (None
when no sub-command was given) and the option assignments. -/
structure NS where
  action : Option String
  opts : List (String × String)
deriving DecidableEq

/- Outcome of the whole argument parse: a Namespace, a usage-error exit
(status 2), or a help exit (status 0). -/
inductive PRes where
  | ok (ns : NS) : PRes
  | err : PRes
  | help : PRes
deriving DecidableEq

/- Parse the tail of the argument list under the named sub-command and
apply the required-option check. -/
def parseAction (a : String) (rest : List String) : PRes :=
  match parseOpts (specFor a) rest [] none with
  | .ok opts => if requiredOk (specFor a) opts then .ok ⟨some a, opts⟩ else .err
  | .err => .err
  | .help => .help

/- A leading dash token at the top level: the help flag (exactly, or as
an unambiguous two-dash abbreviation), the bare double-dash separator
grouping what follows as positionals, or an error, since the top-level
parser declares no optional other than help. -/
def topOption (t : String) (rest : List String) : PRes :=
  if t = "-h" then .help
  else if t = "--" then
    match rest with
    | [] => .ok ⟨none, []⟩
    | a :: more =>
      if actionNames.contains a && more.isEmpty then parseAction a [] else .err
  else if startsDashDash t then
    let body := t.toList.drop 2
    let name := body.takeWhile (fun c => c != '=')
    if !name.isEmpty && name.isPrefixOf ("help").toList &&
        (body.dropWhile (fun c => c != '=')).isEmpty then .help
    else .err
  else .err

/- The whole argument parse of parse(): an empty argument list yields a
Namespace whose action is None (the sub-parsers are not required); a
first token naming a sub-command hands the tail to that sub-command; a
dash token is handled as a top-level optional; any other token is an
invalid sub-command choice and a usage error. -/
def parse (argv : List String) : PRes :=
  match argv with
  | [] => .ok ⟨none, []⟩
  | t :: rest =>
    if actionNames.contains t then parseAction t rest
    else if startsDash t then topOption t rest
    else .err

/- Command token list of deploy_local_train, copied from the source. -/
def deploy_local_train_command : List String :=
  ["powershell.exe",
   "gcloud", "ai-platform", "local", "train",
   "--package-path", "modeling",
   "--module-name", "modeling.trainer.model",
   "--job-dir", "local-training-output",
   "--",
   "--run_location=local",
   "--bucket=None"]

/- Command token list of deploy_trainer, copied from the source. -/
def deploy_trainer_command (bucket path name : String) : List String :=
  ["powershell.exe",
   "gcloud", "ai-platform",
   "jobs", "submit", "training",
   name,
   "--package-path", "modeling",
   "--module-name", "modeling.trainer.model",
   "--staging-bucket", "gs://" ++ bucket,
   "--python-version", "3.7",
   "--runtime-version", "1.15",
   "--",
   "--bucket=" ++ bucket,
   "--path=" ++ path]

/- Command token list of deploy_local_batch_train, copied from the
source. -/
def deploy_local_batch_train_command (project dataset_table : String) :
    List String :=
  ["powershell.exe",
   "gcloud", "ai-platform", "local", "train",
   "--package-path", "modeling",
   "--module-name", "modeling.trainer.batch_model",
   "--job-dir", "local-training-output",
   "--",
   "--run_location=local",
   "--bucket=None",
   "--project=" ++ project,
   "--dataset_table=" ++ dataset_table]

/- Command token list of deploy_batch_trainer, copied from the source. -/
def deploy_batch_trainer_command (bucket name project dataset_table : String) :
    List String :=
  ["powershell.exe",
   "gcloud", "ai-platform",
   "jobs", "submit", "training",
   name,
   "--package-path", "modeling",
   "--module-name", "modeling.trainer.batch_model",
   "--staging-bucket", "gs://" ++ bucket,
   "--python-version", "3.7",
   "--runtime-version", "1.15",
   "--",
   "--bucket=" ++ bucket,
   "--project=" ++ project,
   "--dataset_table=" ++ dataset_table]

/- Command token list of deploy_predictor, copied from the source. -/
def deploy_predictor_command (version model origin package_path : String) :
    List String :=
  ["powershell.exe",
   "gcloud", "beta", "ai-platform",
   "versions", "create", version,
   "--model", model,
   "--runtime-version", "1.15",
   "--python-version", "3.7",
   "--origin", origin,
   "--package-uris", package_path,
   "--prediction-class", "modeling.predictor.predictor.Predictor",
   "--verbosity=debug"]

/- Attribute access on the parsed Namespace (args.bucket and friends);
for a Namespace produced by a successful parse of the matching action
the lookup always succeeds, so the default is never seen. -/
def getOpt (ns : NS) (d : String) : String :=
  (ns.opts.lookup d).getD ("")

/- The action dispatch of main(): select the command token list built by
the action's deploy function, or None for the fall-through that raises
ValueError (action unset or outside the closed set). -/
def dispatch (ns : NS) : Option (List String) :=
  match ns.action with
  | none => none
  | some a =>
    if a = "local_train" then
      some deploy_local_train_command
    else if a = "train" then
      some (deploy_trainer_command (getOpt ns ("bucket")) (getOpt ns ("path"))
        (getOpt ns ("name")))
    else if a = "local_batch_train" then
      some (deploy_local_batch_train_command (getOpt ns ("project"))
        (getOpt ns ("dataset_table")))
    else if a = "batch_train" then
      some (deploy_batch_trainer_command (getOpt ns ("bucket"))
        (getOpt ns ("name")) (getOpt ns ("project"))
        (getOpt ns ("dataset_table")))
    else if a = "predict" then
      some (deploy_predictor_command (getOpt ns ("version"))
        (getOpt ns ("model")) (getOpt ns ("origin"))
        (getOpt ns ("package_path")))
    else none

/- CompletedProcess.check_returncode as a function of the child's exit
status: return normally on zero, raise CalledProcessError otherwise. -/
def check_returncode (rc : Int) : Except Unit Unit :=
  if rc = 0 then .ok () else .error ()

/- Observable outcome of one program run. -/
inductive MainOutcome where
  | usageExit : MainOutcome
  | helpExit : MainOutcome
  | unknownActionError : MainOutcome
  | ranOk (cmd : List String) : MainOutcome
  | ranFailed (cmd : List String) : MainOutcome
deriving DecidableEq

/- The whole program run as a function of the argument list and of the
exit status the external command would return: argparse errors exit
before any command is built; a parsed action builds its command, runs
it, and check_returncode turns a non-zero child status into an uncaught
CalledProcessError. -/
def mainRun (argv : List String) (childExit : Int) : MainOutcome :=
  match parse argv with
  | .err => .usageExit
  | .help => .helpExit
  | .ok ns =>
    match dispatch ns with
    | none => .unknownActionError
    | some cmd =>
      match check_returncode childExit with
      | .ok _ => .ranOk cmd
      | .error _ => .ranFailed cmd

/- The process exit status of each outcome: argparse usage errors exit
with 2, help exits with 0, an uncaught Python exception (ValueError or
CalledProcessError) exits with 1, and a clean run exits with 0. -/
def exitCode : MainOutcome → Int
  | .usageExit => 2
  | .helpExit => 0
  | .unknownActionError => 1
  | .ranOk _ => 0
  | .ranFailed _ => 1

/- The external commands launched during the run: exactly one when a
deploy function was reached, none otherwise. -/
def launched : MainOutcome → List (List String)
  | .ranOk cmd => [cmd]
  | .ranFailed cmd => [cmd]
  | _ => []

/- True when the token assigns (or begins assigning) a value to the
given destination: either an equals-sign form or a space-separated form
naming that destination, exact or abbreviated. -/
def selects (spec : List (String × String)) (d : String) (t : String) : Bool :=
  match classify spec t with
  | .eqOpt d2 _ => d2 == d
  | .spaceOpt d2 => d2 == d
  | _ => false

/- True when the token invokes the sub-command's help flag. -/
def isHelp (spec : List (String × String)) (t : String) : Bool :=
  match classify spec t with
  | .helpTok => true
  | _ => false

end Deploy

namespace Deploy

/-- Claim C1: for every choice of the bucket, path and name option
strings, the train action's command-token list is the fixed 20-token
list with the job name at position 6, the gs-prefixed staging bucket at
position 12, the python-version pair 3.7 at positions 13 and 14, the
runtime-version pair 1.15 at positions 15 and 16, and the interpolated
bucket and path module arguments at positions 18 and 19. -/
theorem c1_train_command_tokens (b p n : String) :
    (deploy_trainer_command b p n).length = 20 ∧
    (deploy_trainer_command b p n).get? 6 = some n ∧
    (deploy_trainer_command b p n).get? 12 = some ("gs://" ++ b) ∧
    (deploy_trainer_command b p n).get? 13 = some ("--python-version") ∧
    (deploy_trainer_command b p n).get? 14 = some ("3.7") ∧
    (deploy_trainer_command b p n).get? 15 = some ("--runtime-version") ∧
    (deploy_trainer_command b p n).get? 16 = some ("1.15") ∧
    (deploy_trainer_command b p n).get? 18 = some ("--bucket=" ++ b) ∧
    (deploy_trainer_command b p n).get? 19 = some ("--path=" ++ p) :=
  ⟨rfl, rfl, rfl, rfl, rfl, rfl, rfl, rfl, rfl⟩

/-- Claim C5: the local_train action ignores the ArgumentSet: dispatch
always selects the one constant token list, which targets the fixed
module path and output directory and carries the hardcoded placeholder
run-location and bucket markers. -/
theorem c5_local_train_constant (opts : List (String × String)) :
    dispatch ⟨some ("local_train"), opts⟩ = some deploy_local_train_command ∧
    ("modeling.trainer.model") ∈ deploy_local_train_command ∧
    ("local-training-output") ∈ deploy_local_train_command ∧
    ("--run_location=local") ∈ deploy_local_train_command ∧
    ("--bucket=None") ∈ deploy_local_train_command :=
  ⟨rfl, by decide, by decide, by decide, by decide⟩

/-- Claim C6: for every choice of the version, model, origin and
package_path option strings, the predict action's command-token list
interpolates exactly those four values (at positions 6, 8, 14 and 16)
and hardcodes runtime version 1.15, python version 3.7 and the fixed
prediction-handler class reference. -/
theorem c6_predict_command_tokens (v m o pp : String) :
    (deploy_predictor_command v m o pp).length = 20 ∧
    (deploy_predictor_command v m o pp).get? 6 = some v ∧
    (deploy_predictor_command v m o pp).get? 7 = some ("--model") ∧
    (deploy_predictor_command v m o pp).get? 8 = some m ∧
    (deploy_predictor_command v m o pp).get? 9 = some ("--runtime-version") ∧
    (deploy_predictor_command v m o pp).get? 10 = some ("1.15") ∧
    (deploy_predictor_command v m o pp).get? 11 = some ("--python-version") ∧
    (deploy_predictor_command v m o pp).get? 12 = some ("3.7") ∧
    (deploy_predictor_command v m o pp).get? 14 = some o ∧
    (deploy_predictor_command v m o pp).get? 16 = some pp ∧
    (deploy_predictor_command v m o pp).get? 18 =
      some ("modeling.predictor.predictor.Predictor") :=
  ⟨rfl, rfl, rfl, rfl, rfl, rfl, rfl, rfl, rfl, rfl, rfl⟩

/-- Claim C7: the batch_train command has the same shape as the train
command: identical tokens up to the module name, the batch-training
module path in the module-name slot, identical staging-bucket and
version tokens, the job name at position 6, the gs-prefixed staging
bucket at position 12, and the project and dataset-table values
forwarded as trailing module arguments after the double-dash
separator. -/
theorem c7_batch_train_shape (b n proj dt p : String) :
    (deploy_batch_trainer_command b n proj dt).take 10 =
      (deploy_trainer_command b p n).take 10 ∧
    (deploy_batch_trainer_command b n proj dt).get? 10 =
      some ("modeling.trainer.batch_model") ∧
    ((deploy_batch_trainer_command b n proj dt).drop 11).take 7 =
      ((deploy_trainer_command b p n).drop 11).take 7 ∧
    (deploy_batch_trainer_command b n proj dt).get? 6 = some n ∧
    (deploy_batch_trainer_command b n proj dt).get? 12 = some ("gs://" ++ b) ∧
    (deploy_batch_trainer_command b n proj dt).get? 17 = some ("--") ∧
    ("--project=" ++ proj) ∈ (deploy_batch_trainer_command b n proj dt).drop 18 ∧
    ("--dataset_table=" ++ dt) ∈
      (deploy_batch_trainer_command b n proj dt).drop 18 := by
  refine ⟨rfl, rfl, rfl, rfl, rfl, rfl, ?_, ?_⟩ <;>
    simp [deploy_batch_trainer_command]

/-- Claim C10: the batch_train trailing module arguments after the
double-dash separator are exactly the bucket, project and dataset-table
assignments, so the bucket option is forwarded to the module in
addition to its use in the staging-bucket URI. -/
theorem c10_batch_forwards_bucket (b n proj dt : String) :
    (deploy_batch_trainer_command b n proj dt).get? 17 = some ("--") ∧
    (deploy_batch_trainer_command b n proj dt).drop 18 =
      [("--bucket=" ++ b), ("--project=" ++ proj), ("--dataset_table=" ++ dt)] ∧
    ("--bucket=" ++ b) ∈ (deploy_batch_trainer_command b n proj dt).drop 18 :=
  ⟨rfl, rfl, by simp [deploy_batch_trainer_command]⟩

/-- Claim C8: command construction is pure and deterministic: dispatch
depends only on the action tag and on the value each option name looks
up to, so two ArgumentSets with the same action and the same option
valuation construct the same command-token list. -/
theorem c8_dispatch_deterministic (ns1 ns2 : NS)
    (ha : ns1.action = ns2.action)
    (ho : ∀ k : String, ns1.opts.lookup k = ns2.opts.lookup k) :
    dispatch ns1 = dispatch ns2 := by
  have hg : ∀ k, getOpt ns1 k = getOpt ns2 k := by
    intro k
    unfold getOpt
    rw [ho k]
  unfold dispatch
  rw [← ha]
  cases ns1.action with
  | none => rfl
  | some a => simp only [hg]

/-- Witness for claim C8 at a concrete train ArgumentSet. -/
theorem c8_dispatch_deterministic_w :
    dispatch ⟨some ("train"), [("bucket", "b"), ("path", "p"), ("name", "n")]⟩ =
      dispatch ⟨some ("train"), [("bucket", "b"), ("path", "p"), ("name", "n")]⟩ :=
  c8_dispatch_deterministic
    ⟨some ("train"), [("bucket", "b"), ("path", "p"), ("name", "n")]⟩
    ⟨some ("train"), [("bucket", "b"), ("path", "p"), ("name", "n")]⟩
    rfl (fun _ => rfl)

/-- Claim C9: every command-token list produced by dispatch, for every
ArgumentSet, begins with the shell-launcher token powershell.exe
followed by the fixed tool token gcloud. -/
theorem c9_powershell_gcloud_head (ns : NS) (cmd : List String)
    (h : dispatch ns = some cmd) :
    cmd.take 2 = [("powershell.exe"), ("gcloud")] := by
  obtain ⟨act, opts⟩ := ns
  cases act with
  | none => exact absurd h (by simp [dispatch])
  | some a =>
    simp only [dispatch] at h
    split_ifs at h <;> injection h with h <;> rw [← h] <;> rfl

/-- Witness for claim C9 at the local_train ArgumentSet. -/
theorem c9_powershell_gcloud_head_w :
    deploy_local_train_command.take 2 = [("powershell.exe"), ("gcloud")] :=
  c9_powershell_gcloud_head ⟨some ("local_train"), []⟩
    deploy_local_train_command rfl

end Deploy

namespace Deploy

/- Helper for the missing-option claims: as long as no token of the
remaining argument tail assigns to destination d and no token invokes
help, the sub-command parse either ends in a usage error or ends with
d's assignment unchanged. -/
theorem parseOpts_stable (spec : List (String × String)) (d : String)
    (rest : List String) :
    ∀ (opts : List (String × String)) (pend : Option String),
      (∀ t ∈ rest, selects spec d t = false ∧ isHelp spec t = false) →
      (∀ d2, pend = some d2 → d2 ≠ d) →
      parseOpts spec rest opts pend = .err ∨
        ∃ opts2, parseOpts spec rest opts pend = .ok opts2 ∧
          opts2.lookup d = opts.lookup d := by
  induction rest with
  | nil =>
    intro opts pend _ _
    cases pend with
    | none => exact Or.inr ⟨opts, rfl, rfl⟩
    | some d2 => exact Or.inl rfl
  | cons t rest ih =>
    intro opts pend h hp
    have ht := h t (List.mem_cons_self t rest)
    have hrest : ∀ u ∈ rest, selects spec d u = false ∧ isHelp spec u = false :=
      fun u hu => h u (List.mem_cons_of_mem t hu)
    cases pend with
    | some d2 =>
      by_cases hsd : startsDash t = true
      · left
        simp [parseOpts, hsd]
      · have hne : d2 ≠ d := hp d2 rfl
        have hrec := ih ((d2, t) :: opts) none hrest (fun x hx => nomatch hx)
        have heq : parseOpts spec (t :: rest) opts (some d2) =
            parseOpts spec rest ((d2, t) :: opts) none := by
          simp [parseOpts, hsd]
        rcases hrec with he | ⟨o2, ho, hl⟩
        · left
          rw [heq, he]
        · right
          refine ⟨o2, by rw [heq, ho], ?_⟩
          rw [hl]
          have hb : (d == d2) = false := by
            simp only [beq_eq_false_iff_ne, ne_eq]
            exact fun hdd => hne hdd.symm
          simp [List.lookup, hb]
    | none =>
      by_cases hsep : t = "--"
      · subst hsep
        by_cases hre : rest.isEmpty
        · right
          exact ⟨opts, by simp [parseOpts, hre], rfl⟩
        · left
          simp [parseOpts, hre]
      · cases hc : classify spec t with
        | helpTok =>
          exfalso
          have := ht.2
          rw [isHelp, hc] at this
          exact Bool.noConfusion this
        | bad =>
          left
          simp [parseOpts, hsep, hc]
        | eqOpt d2 v =>
          have hne : d2 ≠ d := by
            have := ht.1
            rw [selects, hc] at this
            simpa using this
          have hrec := ih ((d2, v) :: opts) none hrest (fun x hx => nomatch hx)
          have heq : parseOpts spec (t :: rest) opts none =
              parseOpts spec rest ((d2, v) :: opts) none := by
            simp [parseOpts, hsep, hc]
          rcases hrec with he | ⟨o2, ho, hl⟩
          · left
            rw [heq, he]
          · right
            refine ⟨o2, by rw [heq, ho], ?_⟩
            rw [hl]
            have hb : (d == d2) = false := by
              simp only [beq_eq_false_iff_ne, ne_eq]
              exact fun hdd => hne hdd.symm
            simp [List.lookup, hb]
        | spaceOpt d2 =>
          have hne : d2 ≠ d := by
            have := ht.1
            rw [selects, hc] at this
            simpa using this
          have hrec := ih opts (some d2) hrest
            (fun x hx => by cases hx; exact hne)
          have heq : parseOpts spec (t :: rest) opts none =
              parseOpts spec rest opts (some d2) := by
            simp [parseOpts, hsep, hc]
          rcases hrec with he | ⟨o2, ho, hl⟩
          · left
            rw [heq, he]
          · right
            exact ⟨o2, by rw [heq, ho], hl⟩

/- Helper: an action whose argument tail never assigns to one of its
required options, and never asks for help, fails the whole parse. -/
theorem parse_missing_required (a : String) (fd : String × String)
    (rest : List String)
    (ha : actionNames.contains a = true) (hfd : fd ∈ specFor a)
    (h : ∀ t ∈ rest,
      selects (specFor a) fd.2 t = false ∧ isHelp (specFor a) t = false) :
    parse (a :: rest) = .err := by
  have ham : a ∈ actionNames := by simpa using ha
  have hst := parseOpts_stable (specFor a) fd.2 rest [] none h
    (fun x hx => nomatch hx)
  rcases hst with he | ⟨o2, ho, hl⟩
  · simp [parse, ham, parseAction, he]
  · have hnone : o2.lookup fd.2 = none := by simpa using hl
    have hreq : requiredOk (specFor a) o2 = false := by
      cases hq : requiredOk (specFor a) o2 with
      | false => rfl
      | true =>
        exfalso
        have hall := List.all_eq_true.mp hq fd hfd
        rw [hnone] at hall
        exact Bool.noConfusion hall
    simp [parse, ham, parseAction, ho, hreq]

end Deploy

namespace Deploy

/-- Claim C2 (amended): for every action and every one of its required
options, if no token of the argument tail assigns a value to that
option (under its exact or any accepted abbreviated spelling) and no
token requests help, then parsing fails before any command is
constructed: the run is a usage exit with status 2 and no external
process is launched. -/
theorem c2_missing_option_rejected (a : String) (fd : String × String)
    (rest : List String) (rc : Int)
    (ha : actionNames.contains a = true) (hfd : fd ∈ specFor a)
    (h : ∀ t ∈ rest,
      selects (specFor a) fd.2 t = false ∧ isHelp (specFor a) t = false) :
    parse (a :: rest) = .err ∧
      mainRun (a :: rest) rc = .usageExit ∧
      launched (mainRun (a :: rest) rc) = [] ∧
      exitCode (mainRun (a :: rest) rc) = 2 := by
  have hp := parse_missing_required a fd rest ha hfd h
  refine ⟨hp, ?_, ?_, ?_⟩ <;> simp [mainRun, hp, launched, exitCode]

/-- Witness for claim C2: the train action with the bucket option
omitted is rejected and nothing is launched. -/
theorem c2_missing_option_rejected_w :
    parse ["train", "--path=p1"] = .err ∧
      mainRun ["train", "--path=p1"] 0 = .usageExit ∧
      launched (mainRun ["train", "--path=p1"] 0) = [] ∧
      exitCode (mainRun ["train", "--path=p1"] 0) = 2 :=
  c2_missing_option_rejected ("train") ("bucket", "bucket")
    ["--path=p1"] 0 (by decide) (by decide) (by decide)

/-- Claim C2 counterexample: two train argument lists in which the
token --bucket is absent defeat the claim as stated: with the
abbreviated spelling --buck, argparse still binds the bucket option,
parsing succeeds and the external command is launched; and with
--help, the parser terminates the process with exit status zero, not a
non-zero failure. -/
theorem c2_counterexample :
    (∀ t ∈ (["--buck", "b1", "--path", "p1", "--name", "n1"] : List String),
      t ≠ "--bucket") ∧
    parse ["train", "--buck", "b1", "--path", "p1", "--name", "n1"] =
      .ok ⟨some ("train"),
        [("name", "n1"), ("path", "p1"), ("bucket", "b1")]⟩ ∧
    launched
      (mainRun ["train", "--buck", "b1", "--path", "p1", "--name", "n1"] 0) ≠
      [] ∧
    parse ["train", "--help"] = .help ∧
    exitCode (mainRun ["train", "--help"] 0) = 0 ∧
    launched (mainRun ["train", "--help"] 0) = [] :=
  ⟨by decide, by decide, by decide, by decide, by decide, by decide⟩

/-- Claim C3 (amended): an unrecognized non-dash action string makes
parsing fail with a usage error: exit status 2 and no dispatch, no
launched process.  A missing action, however, is accepted by the
parser with the action unset, and the run then ends with main's
unknown-action ValueError: a non-zero exit status, but not a parser
usage error. -/
theorem c3_action_validation (a : String) (rest : List String) (rc : Int)
    (hna : actionNames.contains a = false) (hnd : startsDash a = false) :
    (parse (a :: rest) = .err ∧
      mainRun (a :: rest) rc = .usageExit ∧
      launched (mainRun (a :: rest) rc) = [] ∧
      exitCode (mainRun (a :: rest) rc) = 2) ∧
    (parse [] = .ok ⟨none, []⟩ ∧
      mainRun [] rc = .unknownActionError ∧
      launched (mainRun [] rc) = [] ∧
      exitCode (mainRun [] rc) = 1) := by
  have hnam : a ∉ actionNames := by simpa using hna
  have hp : parse (a :: rest) = .err := by simp [parse, hnam, hnd]
  have hp0 : parse [] = .ok ⟨none, []⟩ := rfl
  constructor
  · refine ⟨hp, ?_, ?_, ?_⟩ <;> simp [mainRun, hp, launched, exitCode]
  · refine ⟨hp0, ?_, ?_, ?_⟩ <;>
      simp [mainRun, hp0, dispatch, launched, exitCode]

/-- Witness for claim C3 at the unrecognized action string foo. -/
theorem c3_action_validation_w :
    (parse ["foo"] = .err ∧
      mainRun ["foo"] 0 = .usageExit ∧
      launched (mainRun ["foo"] 0) = [] ∧
      exitCode (mainRun ["foo"] 0) = 2) ∧
    (parse [] = .ok ⟨none, []⟩ ∧
      mainRun [] 0 = .unknownActionError ∧
      launched (mainRun [] 0) = [] ∧
      exitCode (mainRun [] 0) = 1) :=
  c3_action_validation ("foo") [] 0 (by decide) (by decide)

/-- Claim C3 counterexample: with an empty argument list the action is
missing, yet parsing succeeds with the action unset and the run ends in
the unknown-action ValueError, not in a usage-error termination of the
parser. -/
theorem c3_missing_action_counterexample :
    parse [] = .ok ⟨none, []⟩ ∧
      mainRun [] 0 = .unknownActionError ∧
      mainRun [] 0 ≠ .usageExit ∧
      exitCode (mainRun [] 0) = 1 :=
  ⟨rfl, rfl, by decide, rfl⟩

/-- Claim C4: dispatch raises exactly when the external command's exit
status is non-zero: check_returncode returns normally on zero and
raises otherwise, so a run whose parsed action reached a command ends
cleanly with program exit status 0 when the child exits 0, and ends in
an uncaught CalledProcessError with a non-zero program exit status when
the child exits non-zero. -/
theorem c4_returncode_propagation (argv : List String) (ns : NS)
    (cmd : List String) (rc : Int)
    (hp : parse argv = .ok ns) (hd : dispatch ns = some cmd) :
    (check_returncode rc = .ok () ↔ rc = 0) ∧
    (mainRun argv 0 = .ranOk cmd ∧ exitCode (mainRun argv 0) = 0) ∧
    (rc ≠ 0 → mainRun argv rc = .ranFailed cmd ∧
      exitCode (mainRun argv rc) ≠ 0) := by
  refine ⟨?_, ?_, ?_⟩
  · unfold check_returncode
    by_cases h0 : rc = 0 <;> simp [h0]
  · constructor <;> simp [mainRun, hp, hd, check_returncode, exitCode]
  · intro hrc
    constructor <;> simp [mainRun, hp, hd, check_returncode, hrc, exitCode]

/-- Witness for claim C4 at the local_train action with child exit
status 7. -/
theorem c4_returncode_propagation_w :
    (check_returncode 7 = .ok () ↔ (7 : Int) = 0) ∧
    (mainRun ["local_train"] 0 = .ranOk deploy_local_train_command ∧
      exitCode (mainRun ["local_train"] 0) = 0) ∧
    ((7 : Int) ≠ 0 →
      mainRun ["local_train"] 7 = .ranFailed deploy_local_train_command ∧
      exitCode (mainRun ["local_train"] 7) ≠ 0) :=
  c4_returncode_propagation ["local_train"] ⟨some ("local_train"), []⟩
    deploy_local_train_command 7 (by decide) rfl

end Deploy

namespace Deploy

/-- Witness for claim C1 at bucket b1, path p1 and job name job1. -/
theorem c1_train_command_tokens_w :
    (deploy_trainer_command ("b1") ("p1") ("job1")).length = 20 ∧
    (deploy_trainer_command ("b1") ("p1") ("job1")).get? 6 = some ("job1") ∧
    (deploy_trainer_command ("b1") ("p1") ("job1")).get? 12 =
      some ("gs://" ++ "b1") ∧
    (deploy_trainer_command ("b1") ("p1") ("job1")).get? 13 =
      some ("--python-version") ∧
    (deploy_trainer_command ("b1") ("p1") ("job1")).get? 14 = some ("3.7") ∧
    (deploy_trainer_command ("b1") ("p1") ("job1")).get? 15 =
      some ("--runtime-version") ∧
    (deploy_trainer_command ("b1") ("p1") ("job1")).get? 16 = some ("1.15") ∧
    (deploy_trainer_command ("b1") ("p1") ("job1")).get? 18 =
      some ("--bucket=" ++ "b1") ∧
    (deploy_trainer_command ("b1") ("p1") ("job1")).get? 19 =
      some ("--path=" ++ "p1") :=
  c1_train_command_tokens ("b1") ("p1") ("job1")

/-- Witness for claim C5 at a nonempty ArgumentSet. -/
theorem c5_local_train_constant_w :
    dispatch ⟨some ("local_train"), [("bucket", "b1")]⟩ =
      some deploy_local_train_command ∧
    ("modeling.trainer.model") ∈ deploy_local_train_command ∧
    ("local-training-output") ∈ deploy_local_train_command ∧
    ("--run_location=local") ∈ deploy_local_train_command ∧
    ("--bucket=None") ∈ deploy_local_train_command :=
  c5_local_train_constant [("bucket", "b1")]

/-- Witness for claim C6 at concrete option values. -/
theorem c6_predict_command_tokens_w :
    (deploy_predictor_command ("v1") ("m1") ("o1") ("pp1")).length = 20 ∧
    (deploy_predictor_command ("v1") ("m1") ("o1") ("pp1")).get? 6 =
      some ("v1") ∧
    (deploy_predictor_command ("v1") ("m1") ("o1") ("pp1")).get? 7 =
      some ("--model") ∧
    (deploy_predictor_command ("v1") ("m1") ("o1") ("pp1")).get? 8 =
      some ("m1") ∧
    (deploy_predictor_command ("v1") ("m1") ("o1") ("pp1")).get? 9 =
      some ("--runtime-version") ∧
    (deploy_predictor_command ("v1") ("m1") ("o1") ("pp1")).get? 10 =
      some ("1.15") ∧
    (deploy_predictor_command ("v1") ("m1") ("o1") ("pp1")).get? 11 =
      some ("--python-version") ∧
    (deploy_predictor_command ("v1") ("m1") ("o1") ("pp1")).get? 12 =
      some ("3.7") ∧
    (deploy_predictor_command ("v1") ("m1") ("o1") ("pp1")).get? 14 =
      some ("o1") ∧
    (deploy_predictor_command ("v1") ("m1") ("o1") ("pp1")).get? 16 =
      some ("pp1") ∧
    (deploy_predictor_command ("v1") ("m1") ("o1") ("pp1")).get? 18 =
      some ("modeling.predictor.predictor.Predictor") :=
  c6_predict_command_tokens ("v1") ("m1") ("o1") ("pp1")

/-- Witness for claim C7 at concrete option values. -/
theorem c7_batch_train_shape_w :
    (deploy_batch_trainer_command ("b1") ("n1") ("pr1") ("dt1")).take 10 =
      (deploy_trainer_command ("b1") ("p1") ("n1")).take 10 ∧
    (deploy_batch_trainer_command ("b1") ("n1") ("pr1") ("dt1")).get? 10 =
      some ("modeling.trainer.batch_model") ∧
    ((deploy_batch_trainer_command ("b1") ("n1") ("pr1") ("dt1")).drop 11).take 7 =
      ((deploy_trainer_command ("b1") ("p1") ("n1")).drop 11).take 7 ∧
    (deploy_batch_trainer_command ("b1") ("n1") ("pr1") ("dt1")).get? 6 =
      some ("n1") ∧
    (deploy_batch_trainer_command ("b1") ("n1") ("pr1") ("dt1")).get? 12 =
      some ("gs://" ++ "b1") ∧
    (deploy_batch_trainer_command ("b1") ("n1") ("pr1") ("dt1")).get? 17 =
      some ("--") ∧
    ("--project=" ++ "pr1") ∈
      (deploy_batch_trainer_command ("b1") ("n1") ("pr1") ("dt1")).drop 18 ∧
    ("--dataset_table=" ++ "dt1") ∈
      (deploy_batch_trainer_command ("b1") ("n1") ("pr1") ("dt1")).drop 18 :=
  c7_batch_train_shape ("b1") ("n1") ("pr1") ("dt1") ("p1")

/-- Witness for claim C10 at concrete option values. -/
theorem c10_batch_forwards_bucket_w :
    (deploy_batch_trainer_command ("b1") ("n1") ("pr1") ("dt1")).get? 17 =
      some ("--") ∧
    (deploy_batch_trainer_command ("b1") ("n1") ("pr1") ("dt1")).drop 18 =
      [("--bucket=" ++ "b1"), ("--project=" ++ "pr1"),
       ("--dataset_table=" ++ "dt1")] ∧
    ("--bucket=" ++ "b1") ∈
      (deploy_batch_trainer_command ("b1") ("n1") ("pr1") ("dt1")).drop 18 :=
  c10_batch_forwards_bucket ("b1") ("n1") ("pr1") ("dt1")

end Deploy
